import Mathlib

/-!
Shallow embedding of `src/lib/_json.py` (psycopg2's JSON adaptation module):
the `Json` parameter wrapper and the json typecaster registration functions
`register_json`, `register_default_json`, `_create_json_typecasters` and
`_get_json_oids`.

Python values appearing as "an int or None" are modelled as `Option Nat`.
The decoded Python values a loads function produces are an abstract type `V`.
The driver primitives declared in the C extension (`new_type`,
`new_array_type`, `register_type`) and the connection/cursor behaviour are
not under `src/`; they are modelled from the spec's external-interface
section, each marked `Modelled from the spec:` in its doc comment.
-/

namespace PsycopgJson

/-- A row of the server catalog `pg_type` as the discovery query sees it:
the type's name, its oid, and its `typarray` column. -/
structure PgTypeRow where
  typname : String
  oid : Nat
  typarray : Nat
  deriving DecidableEq, Repr

/-- Transaction status of a connection: `ready` (no transaction open) or
`inTransaction` (an explicitly- or implicitly-begun transaction is open).
`inTransaction` plays the role of the code's `STATUS_IN_TRANSACTION`. -/
inductive ConnStatus where
  | ready
  | inTransaction
  deriving DecidableEq, Repr

/-- Modelled from the spec: the connection object the driver supplies
(outside `src/`), exposing `status`, `serverVersionNumber`, `autocommitFlag`,
`execute`, `fetchOneRow` and `rollback`.  `catalog` is the server's `pg_type`
content the discovery query reads; `execFails` makes `curs.execute` raise a
driver error, so failure paths of discovery can be stated. -/
structure Conn where
  status : ConnStatus
  autocommit : Bool
  server_version : Nat
  catalog : List PgTypeRow
  execFails : Bool
  deriving DecidableEq, Repr

/-- Errors surfaced by the module: `importError` (no json module / no dumps
function available), `programmingError` ("json data type not found"),
`queryError` (a driver error raised by `curs.execute`), `noConnection`
(no connection or cursor was provided where one is needed). -/
inductive Err where
  | importError
  | programmingError
  | queryError
  | noConnection
  deriving DecidableEq, Repr

/-- The process-wide `json` module the source imports at load time: a pair of
an encode function `dumps` and a decode function `loads`.  The module-level
variable `json` of the source is an `Option (JsonModule V)`: `none` when no
json implementation is available. -/
structure JsonModule (V : Type) where
  dumps : V → String
  loads : String → V

/-- Receive-side type descriptor.  Modelled from the spec: the driver's
descriptor constructors `makeScalarType(oids, name, decodeFn)` and
`makeArrayType(oids, name, elementDescriptor)` (the C extension's `new_type`
and `new_array_type`, outside `src/`) produce these; this module only builds
and installs them. -/
inductive Descriptor (V : Type) where
  | scalar (oids : List (Option Nat)) (name : String) (cast : String → V)
  | array (oids : List (Option Nat)) (name : String) (elem : Descriptor V)

/-- The oid tuple a descriptor is keyed on. -/
def Descriptor.oids {V : Type} : Descriptor V → List (Option Nat)
  | .scalar o _ _ => o
  | .array o _ _ => o

/-- Modelled from the spec: `makeScalarType(oids, name, decodeFn)`, the
code's `new_type` from the C extension. Pure construction, no I/O. -/
def new_type {V : Type} (oids : List (Option Nat)) (name : String)
    (cast : String → V) : Descriptor V :=
  .scalar oids name cast

/-- Modelled from the spec: `makeArrayType(oids, name, elementDescriptor)`,
the code's `new_array_type` from the C extension. Pure construction. -/
def new_array_type {V : Type} (oids : List (Option Nat)) (name : String)
    (el : Descriptor V) : Descriptor V :=
  .array oids name el

/-- The `Json` wrapper class: `adapted` is the wrapped application value,
`_dumps` the encode function resolved at construction (field assignment in
`Json.__init__`). -/
structure Json (V : Type) where
  adapted : V
  _dumps : Option (V → String)

/-- `Json.__init__(self, adapted, dumps=None)`: keep the explicit `dumps` if
given, else the process json module's `dumps` if the module is available,
else `None`. -/
def Json.init {V : Type} (json : Option (JsonModule V)) (adapted : V)
    (dumps : Option (V → String)) : Json V :=
  { adapted := adapted
    _dumps :=
      match dumps with
      | some d => some d
      | none =>
        match json with
        | some m => some m.dumps
        | none => none }

/-- `Json.dumps(self, obj)`: apply the resolved `_dumps` to `obj`, or raise
`ImportError` when none is available. -/
def Json.dumps {V : Type} (self : Json V) (obj : V) : Except Err String :=
  match self._dumps with
  | some d => .ok (d obj)
  | none => .error .importError

/-- oids from PostgreSQL 9.2 (constant `JSON_OID` of the source). -/
def JSON_OID : Nat := 114

/-- oids from PostgreSQL 9.2 (constant `JSONARRAY_OID` of the source). -/
def JSONARRAY_OID : Nat := 199

/-- Observable side effects of one call: how many discovery queries were
issued against the server catalog and how many rollbacks were issued. -/
structure Trace where
  queries : Nat
  rollbacks : Nat
  deriving DecidableEq, Repr

/-- The empty trace: no query, no rollback. -/
def Trace.zero : Trace := ⟨0, 0⟩

/-- Modelled from the spec: effect of `curs.execute` on the connection's
transaction status (driver behaviour, outside `src/`): in manual-commit mode
a query opens an implicit transaction; in auto-commit mode none is opened. -/
def execEffect (c : Conn) : Conn :=
  if c.autocommit then c else { c with status := .inTransaction }

/-- Modelled from the spec: `conn.rollback()` closes any open transaction,
leaving the connection with no transaction open. -/
def rollbackEffect (c : Conn) : Conn :=
  { c with status := .ready }

/-- Result of `curs.fetchone()` after the discovery query
`SELECT t.oid, typarray-or-NULL FROM pg_type t WHERE t.typname = 'json'`:
the first catalog row named `json`, as the pair (oid, typarray column),
where the second column is NULL (`none`) before server version 8.3. -/
def queryJsonOids (c : Conn) : Option (Nat × Option Nat) :=
  match (c.catalog.filter (fun r => r.typname == "json")).head? with
  | none => none
  | some r =>
      some (r.oid, if c.server_version ≥ 80300 then some r.typarray else none)

/-- `_get_json_oids(conn_or_curs)`: save `conn.status`, run the discovery
query, roll back when the saved status was not `STATUS_IN_TRANSACTION` and
autocommit is off, then raise `ProgrammingError` if no row was fetched.
Returns the raised-or-returned value, the connection after the call, and the
trace of queries and rollbacks issued.  When `curs.execute` itself raises
(`execFails`), the driver error propagates before any rollback. -/
def _get_json_oids (c : Conn) :
    Except Err (Nat × Option Nat) × Conn × Trace :=
  let conn_status := c.status
  if c.execFails then
    (.error .queryError, c, ⟨1, 0⟩)
  else
    let c1 := execEffect c
    let r := queryJsonOids c1
    let needRollback := !(conn_status == .inTransaction) && !c1.autocommit
    let c2 := if needRollback then rollbackEffect c1 else c1
    let t : Trace := ⟨1, if needRollback then 1 else 0⟩
    match r with
    | none => (.error .programmingError, c2, t)
    | some pair => (.ok pair, c2, t)

/-- `_create_json_typecasters(oid, array_oid, loads=None)`: resolve `loads`
(explicit, else the json module's, else raise `ImportError`), then build the
`JSON` scalar descriptor on `(oid,)` and — unconditionally in this source —
the `JSONARRAY` array descriptor on `(array_oid,)`. -/
def _create_json_typecasters {V : Type} (json : Option (JsonModule V))
    (oid : Option Nat) (array_oid : Option Nat)
    (loads : Option (String → V)) :
    Except Err (Descriptor V × Option (Descriptor V)) :=
  match loads with
  | none =>
    match json with
    | none => .error .importError
    | some m =>
        let loads := m.loads
        let JSON := new_type [oid] "JSON" (fun s => loads s)
        let JSONARRAY := new_array_type [array_oid] "JSONARRAY" JSON
        .ok (JSON, some JSONARRAY)
  | some loads =>
      let JSON := new_type [oid] "JSON" (fun s => loads s)
      let JSONARRAY := new_array_type [array_oid] "JSONARRAY" JSON
      .ok (JSON, some JSONARRAY)

/-- The world a registration call touches: the one connection (used for
discovery) and the driver's codec tables, kept as the install log
`installs`; an entry `(true, d)` is an install of `d` at connection-local
scope, `(false, d)` at process-global scope.  `register_type(d, target)` is
modelled from the spec (`installDescriptor(descriptor, scopeTargetOrNone)`,
outside `src/`) as appending to this log. -/
structure World (V : Type) where
  conn : Conn
  installs : List (Bool × Descriptor V)

/-- Modelled from the spec: `register_type(descriptor, scopeTargetOrNone)`,
the C extension's registration sink: install a descriptor at connection-local
(`localScope = true`) or process-global (`localScope = false`) scope. -/
def register_type {V : Type} (installs : List (Bool × Descriptor V))
    (localScope : Bool) (d : Descriptor V) : List (Bool × Descriptor V) :=
  installs ++ [(localScope, d)]

/-- `register_json(conn_or_curs=None, globally=False, loads=None, oid=None,
array_oid=None)`: discover the oids when `oid` is None, build both
typecasters, install `JSON` and (when not None) `JSONARRAY` on
`not globally and conn_or_curs or None`, and return them.  `conn_or_curs`
is `true` when a connection or cursor was supplied (the world's `conn`). -/
def register_json {V : Type} (json : Option (JsonModule V)) (w : World V)
    (conn_or_curs : Bool) (globally : Bool) (loads : Option (String → V))
    (oid : Option Nat) (array_oid : Option Nat) :
    Except Err (Descriptor V × Option (Descriptor V)) × World V × Trace :=
  let step1 : Except Err (Option Nat × Option Nat) × World V × Trace :=
    match oid with
    | none =>
      if conn_or_curs then
        match _get_json_oids w.conn with
        | (.error e, c, t) => (.error e, { w with conn := c }, t)
        | (.ok (o, ao), c, t) => (.ok (some o, ao), { w with conn := c }, t)
      else
        (.error .noConnection, w, Trace.zero)
    | some o => (.ok (some o, array_oid), w, Trace.zero)
  match step1 with
  | (.error e, w1, t) => (.error e, w1, t)
  | (.ok (o, ao), w1, t) =>
    match _create_json_typecasters json o ao loads with
    | .error e => (.error e, w1, t)
    | .ok (JSON, JSONARRAY) =>
      let localScope := !globally && conn_or_curs
      let w2 := { w1 with installs := register_type w1.installs localScope JSON }
      let w3 :=
        match JSONARRAY with
        | some d => { w2 with installs := register_type w2.installs localScope d }
        | none => w2
      (.ok (JSON, JSONARRAY), w3, t)

/-- `register_default_json(conn_or_curs=None, globally=False, loads=None)`:
`register_json` with the fixed PostgreSQL ≥ 9.2 oids `JSON_OID` and
`JSONARRAY_OID`. -/
def register_default_json {V : Type} (json : Option (JsonModule V))
    (w : World V) (conn_or_curs : Bool) (globally : Bool)
    (loads : Option (String → V)) :
    Except Err (Descriptor V × Option (Descriptor V)) × World V × Trace :=
  register_json json w conn_or_curs globally loads (some JSON_OID)
    (some JSONARRAY_OID)

/-- A concrete json module over `Nat` values, for evaluating the embedding
on concrete inputs. -/
def mNat : JsonModule Nat :=
  { dumps := fun n => toString n, loads := fun s => s.length }

/-- A connection in manual-commit mode with no open transaction, against a
PostgreSQL 9.2 catalog holding the json type at oids (114, 199). -/
def connW : Conn :=
  { status := .ready, autocommit := false, server_version := 90200
    catalog := [⟨"json", 114, 199⟩], execFails := false }

/-- Like `connW` but with a catalog in which no row is named `json`. -/
def connEmpty : Conn :=
  { status := .ready, autocommit := false, server_version := 90200
    catalog := [], execFails := false }

/-- Like `connW` but whose `curs.execute` raises a driver error. -/
def connFail : Conn :=
  { status := .ready, autocommit := false, server_version := 90200
    catalog := [⟨"json", 114, 199⟩], execFails := true }

/-- A starting world over `connW` with empty codec tables. -/
def w0 : World Nat := { conn := connW, installs := [] }

/-- The scalar descriptor the embedding builds for oid 114 with `mNat`. -/
def dJSON : Descriptor Nat :=
  Descriptor.scalar [some 114] "JSON" (fun s => mNat.loads s)

/-- The array descriptor the embedding builds for oid 199 over `dJSON`. -/
def dJSONARRAY : Descriptor Nat :=
  Descriptor.array [some 199] "JSONARRAY" dJSON

/-- Every run of `_get_json_oids` issues exactly one discovery query. -/
theorem _get_json_oids_one_query (c : Conn) :
    (_get_json_oids c).2.2.queries = 1 := by
  by_cases h : c.execFails = true
  · simp [_get_json_oids, h]
  · cases hr : queryJsonOids (execEffect c) <;> simp [_get_json_oids, h, hr]

/-- C1: evaluated at oid 114, absent array oid and an available json module,
`_create_json_typecasters` does NOT return an absent array descriptor: it
returns a constructed `JSONARRAY` descriptor keyed on the absent oid
`(None,)`.  This contradicts the claim (and the dead `if JSONARRAY is not
None` guard of `register_json`): the array descriptor should be `None` when
`array_oid` is absent. -/
theorem c1_array_descriptor_not_absent :
    (_create_json_typecasters (V := Nat) (some mNat) (some 114) none
        none).toOption.map (fun p => p.2.map Descriptor.oids)
      = some (some [none]) := rfl

/-- C2: `Json.dumps` resolves the encode function by priority: an explicit
`dumps` supplied at construction is used even when the process json module
exists; with no explicit `dumps` the module's `dumps` is used; with neither,
`dumps` raises `ImportError` and returns no text. -/
theorem c2_dumps_priority {V : Type} (m : JsonModule V) (v obj : V)
    (d : V → String) :
    (Json.init (some m) v (some d)).dumps obj = .ok (d obj)
  ∧ (Json.init (some m) v none).dumps obj = .ok (m.dumps obj)
  ∧ (Json.init (none : Option (JsonModule V)) v none).dumps obj
      = .error .importError :=
  ⟨rfl, rfl, rfl⟩

/-- C3: when the discovery query itself succeeds, a connection with
autocommit off that was not inside a transaction has its transaction status
after `_get_json_oids` equal to its status before; and when the connection
was already in a transaction or autocommit is on, no rollback is issued. -/
theorem c3_txn_status_preserved (c : Conn) (hq : c.execFails = false) :
    (c.autocommit = false → c.status ≠ ConnStatus.inTransaction →
        (_get_json_oids c).2.1.status = c.status)
  ∧ (c.status = ConnStatus.inTransaction ∨ c.autocommit = true →
        (_get_json_oids c).2.2.rollbacks = 0) := by
  constructor
  · intro hac hst
    have hready : c.status = ConnStatus.ready := by
      cases h : c.status
      · rfl
      · exact absurd h hst
    cases hr : queryJsonOids (execEffect c) <;>
      · simp [_get_json_oids, hq, hr]
        simp [execEffect, rollbackEffect, hready, hac]
  · intro h
    by_cases hq2 : c.execFails = true
    · simp [_get_json_oids, hq2]
    · cases hr : queryJsonOids (execEffect c) <;>
        · simp [_get_json_oids, hq2, hr]
          rcases h with h | h <;> simp [execEffect, h]

/-- Witness for C3 at the concrete connection `connW`. -/
theorem c3_txn_status_preserved_witness :
    connW.execFails = false ∧ connW.autocommit = false
      ∧ connW.status ≠ ConnStatus.inTransaction
      ∧ (_get_json_oids connW).2.1.status = connW.status :=
  ⟨rfl, rfl, by decide,
    (c3_txn_status_preserved connW rfl).1 rfl (by decide)⟩

/-- C4: every descriptor a `register_json` call installs (the entries it
appends to the install log) is installed at connection-local scope exactly
when `globally` is false and a connection or cursor was given, and at
process-global scope otherwise. -/
theorem c4_install_scope {V : Type} (json : Option (JsonModule V))
    (w : World V) (cc g : Bool) (loads : Option (String → V))
    (oid array_oid : Option Nat) :
    (((register_json json w cc g loads oid array_oid).2.1.installs.drop
        w.installs.length).all fun inst => inst.1 == (!g && cc)) = true := by
  cases oid with
  | some o =>
    cases loads with
    | some l =>
      simp [register_json, _create_json_typecasters, register_type,
        List.drop_left, List.drop_length]
    | none =>
      cases json with
      | none =>
        simp [register_json, _create_json_typecasters, List.drop_length]
      | some m =>
        simp [register_json, _create_json_typecasters, register_type,
          List.drop_left, List.drop_length]
  | none =>
    cases cc with
    | false => simp [register_json, List.drop_length]
    | true =>
      rcases hg : _get_json_oids w.conn with ⟨res, c, t⟩
      cases res with
      | error e => simp [register_json, hg, List.drop_length]
      | ok pr =>
        rcases pr with ⟨o, ao⟩
        cases loads with
        | some l =>
          simp [register_json, hg, _create_json_typecasters, register_type,
            List.drop_left, List.drop_length]
        | none =>
          cases json with
          | none =>
            simp [register_json, hg, _create_json_typecasters,
              List.drop_length]
          | some m =>
            simp [register_json, hg, _create_json_typecasters, register_type,
              List.drop_left, List.drop_length]

/-- C5: `register_default_json` issues no discovery query (its trace is
empty), and whenever it returns descriptors, the scalar one is keyed on oid
114 and the array one on oid 199. -/
theorem c5_default_oids {V : Type} (json : Option (JsonModule V))
    (w : World V) (cc g : Bool) (loads : Option (String → V)) :
    (register_default_json json w cc g loads).2.2 = Trace.zero
  ∧ ∀ p, (register_default_json json w cc g loads).1 = Except.ok p →
      p.1.oids = [some 114] ∧ p.2.map Descriptor.oids = some [some 199] := by
  constructor
  · cases loads with
    | some l => rfl
    | none =>
      cases json with
      | none => rfl
      | some m => rfl
  · intro p hp
    cases loads with
    | some l =>
      simp [register_default_json, register_json,
        _create_json_typecasters] at hp
      subst hp
      simp [new_type, new_array_type, Descriptor.oids, JSON_OID,
        JSONARRAY_OID]
    | none =>
      cases json with
      | none =>
        simp [register_default_json, register_json,
          _create_json_typecasters] at hp
      | some m =>
        simp [register_default_json, register_json,
          _create_json_typecasters] at hp
        subst hp
        simp [new_type, new_array_type, Descriptor.oids, JSON_OID,
          JSONARRAY_OID]

/-- Witness for C5 at a concrete call over `mNat`. -/
theorem c5_default_oids_witness :
    Descriptor.oids (V := Nat) dJSON = [some 114]
      ∧ (some dJSONARRAY).map Descriptor.oids = some [some 199] :=
  (c5_default_oids (some mNat) w0 true false none).2 (dJSON, some dJSONARRAY)
    rfl

/-- C6: `register_json` with an absent scalar oid (and a connection) issues
exactly one discovery query; with a present scalar oid it issues none; and
the scalar descriptor it returns is keyed on the scalar oid discovery
returned. -/
theorem c6_discovery_query {V : Type} (json : Option (JsonModule V))
    (w : World V) (g : Bool) (loads : Option (String → V))
    (aoid : Option Nat) :
    (register_json json w true g loads none aoid).2.2.queries = 1
  ∧ (∀ (cc : Bool) (o : Nat) (aoid2 : Option Nat),
      (register_json json w cc g loads (some o) aoid2).2.2.queries = 0)
  ∧ (∀ (o : Nat) (ao : Option Nat) p,
      (_get_json_oids w.conn).1 = Except.ok (o, ao) →
      (register_json json w true g loads none aoid).1 = Except.ok p →
      p.1.oids = [some o]) := by
  refine ⟨?_, ?_, ?_⟩
  · rcases hg : _get_json_oids w.conn with ⟨res, c, t⟩
    have h1 : t.queries = 1 := by
      have h2 := _get_json_oids_one_query w.conn
      rw [hg] at h2
      exact h2
    cases res with
    | error e => simp [register_json, hg, h1]
    | ok pr =>
      rcases pr with ⟨o, ao⟩
      cases loads with
      | some l => simp [register_json, hg, _create_json_typecasters, h1]
      | none =>
        cases json with
        | none => simp [register_json, hg, _create_json_typecasters, h1]
        | some m => simp [register_json, hg, _create_json_typecasters, h1]
  · intro cc o aoid2
    cases loads with
    | some l => rfl
    | none =>
      cases json with
      | none => rfl
      | some m => rfl
  · intro o ao p hd hp
    rcases hg : _get_json_oids w.conn with ⟨res, c, t⟩
    rw [hg] at hd
    simp only [] at hd
    subst hd
    cases loads with
    | some l =>
      simp [register_json, hg, _create_json_typecasters] at hp
      subst hp
      simp [new_type, Descriptor.oids]
    | none =>
      cases json with
      | none =>
        simp [register_json, hg, _create_json_typecasters] at hp
      | some m =>
        simp [register_json, hg, _create_json_typecasters] at hp
        subst hp
        simp [new_type, Descriptor.oids]

/-- Witness for C6 at a concrete call over `connW`. -/
theorem c6_discovery_query_witness :
    Descriptor.oids (V := Nat) dJSON = [some 114] :=
  (c6_discovery_query (some mNat) w0 false none none).2.2 114 (some 199)
    (dJSON, some dJSONARRAY) rfl rfl

/-- `execEffect` only touches the transaction status: autocommit kept. -/
theorem execEffect_autocommit (c : Conn) :
    (execEffect c).autocommit = c.autocommit := by
  by_cases h : c.autocommit = true <;> simp [execEffect, h]

/-- `execEffect` only touches the transaction status: catalog kept. -/
theorem execEffect_catalog (c : Conn) :
    (execEffect c).catalog = c.catalog := by
  by_cases h : c.autocommit = true <;> simp [execEffect, h]

/-- C7: when no catalog row is named `json` (and the discovery query itself
succeeds), `_get_json_oids` raises `ProgrammingError` ("json data type not
found") and returns no oid pair. -/
theorem c7_not_found (c : Conn) (hq : c.execFails = false)
    (hcat : c.catalog.filter (fun r => r.typname == "json") = []) :
    (_get_json_oids c).1 = Except.error Err.programmingError := by
  have hr : queryJsonOids (execEffect c) = none := by
    simp [queryJsonOids, execEffect_catalog, hcat]
  simp [_get_json_oids, hq, hr]

/-- Witness for C7 at the concrete connection `connEmpty`. -/
theorem c7_not_found_witness :
    connEmpty.execFails = false
  ∧ connEmpty.catalog.filter (fun r => r.typname == "json") = []
  ∧ (_get_json_oids connEmpty).1 = Except.error Err.programmingError :=
  ⟨rfl, rfl, c7_not_found connEmpty rfl rfl⟩

/-- C8: a registration call on which descriptor construction fails (no
loads function supplied and no json module available) installs nothing:
the codec tables are unchanged. -/
theorem c8_no_partial_install {V : Type} (w : World V) (cc g : Bool)
    (oid array_oid : Option Nat) :
    (register_json (V := V) none w cc g none oid array_oid).2.1.installs
      = w.installs := by
  cases oid with
  | some o => simp [register_json, _create_json_typecasters]
  | none =>
    cases cc with
    | false => simp [register_json]
    | true =>
      rcases hg : _get_json_oids w.conn with ⟨res, c, t⟩
      cases res with
      | error e => simp [register_json, hg]
      | ok pr =>
        rcases pr with ⟨o, ao⟩
        simp [register_json, hg, _create_json_typecasters]

/-- C9: after a discovery query that itself succeeds, the rollback runs
exactly when the saved status was not in-transaction and autocommit is off —
in particular it still runs (restoring the status to ready) when the query
returned zero matching rows, before `ProgrammingError` is raised; when the
query itself fails, no rollback is issued. -/
theorem c9_rollback_after_query (c : Conn) :
    (c.execFails = false →
       (_get_json_oids c).2.2.rollbacks
         = (if c.status == ConnStatus.inTransaction || c.autocommit
            then 0 else 1))
  ∧ (c.execFails = false → c.status ≠ ConnStatus.inTransaction →
       c.autocommit = false →
       c.catalog.filter (fun r => r.typname == "json") = [] →
       (_get_json_oids c).1 = Except.error Err.programmingError
         ∧ (_get_json_oids c).2.1.status = ConnStatus.ready
         ∧ (_get_json_oids c).2.2.rollbacks = 1)
  ∧ (c.execFails = true → (_get_json_oids c).2.2.rollbacks = 0) := by
  refine ⟨?_, ?_, ?_⟩
  · intro hq
    cases hr : queryJsonOids (execEffect c) <;>
      · simp [_get_json_oids, hq, hr, execEffect_autocommit]
        cases hst : (c.status == ConnStatus.inTransaction) <;>
          cases hac : c.autocommit <;> simp [hst, hac]
  · intro hq hst hac hcat
    have hr : queryJsonOids (execEffect c) = none := by
      simp [queryJsonOids, execEffect_catalog, hcat]
    have hready : c.status = ConnStatus.ready := by
      cases h : c.status
      · rfl
      · exact absurd h hst
    simp [_get_json_oids, hq, hr]
    simp [execEffect, rollbackEffect, hready, hac]
  · intro hq
    simp [_get_json_oids, hq]

/-- Witness for C9 at the concrete connections `connEmpty` and `connFail`. -/
theorem c9_rollback_after_query_witness :
    ((_get_json_oids connEmpty).1 = Except.error Err.programmingError
      ∧ (_get_json_oids connEmpty).2.1.status = ConnStatus.ready
      ∧ (_get_json_oids connEmpty).2.2.rollbacks = 1)
  ∧ (_get_json_oids connFail).2.2.rollbacks = 0 :=
  ⟨(c9_rollback_after_query connEmpty).2.1 rfl (by decide) rfl rfl,
   (c9_rollback_after_query connFail).2.2 rfl⟩

/-- C10: with an absent scalar oid, a caller-supplied array oid is
discarded: the call's outcome does not depend on the supplied array oid at
all, and both descriptors are keyed on the pair discovery returned. -/
theorem c10_supplied_array_oid_discarded {V : Type}
    (json : Option (JsonModule V)) (w : World V) (g : Bool)
    (loads : Option (String → V)) (a1 a2 : Option Nat) :
    register_json json w true g loads none a1
      = register_json json w true g loads none a2
  ∧ (∀ (o : Nat) (ao : Option Nat) p,
      (_get_json_oids w.conn).1 = Except.ok (o, ao) →
      (register_json json w true g loads none a1).1 = Except.ok p →
      p.1.oids = [some o] ∧ p.2.map Descriptor.oids = some [ao]) := by
  constructor
  · rfl
  · intro o ao p hd hp
    rcases hg : _get_json_oids w.conn with ⟨res, c, t⟩
    rw [hg] at hd
    simp only [] at hd
    subst hd
    cases loads with
    | some l =>
      simp [register_json, hg, _create_json_typecasters] at hp
      subst hp
      simp [new_type, new_array_type, Descriptor.oids]
    | none =>
      cases json with
      | none =>
        simp [register_json, hg, _create_json_typecasters] at hp
      | some m =>
        simp [register_json, hg, _create_json_typecasters] at hp
        subst hp
        simp [new_type, new_array_type, Descriptor.oids]

/-- Witness for C10 at a concrete call over `connW`, with supplied array
oid 5 against none. -/
theorem c10_supplied_array_oid_discarded_witness :
    register_json (V := Nat) (some mNat) w0 true false none none (some 5)
      = register_json (some mNat) w0 true false none none none
  ∧ (Descriptor.oids (V := Nat) dJSON = [some 114]
      ∧ (some dJSONARRAY).map Descriptor.oids = some [some 199]) :=
  ⟨(c10_supplied_array_oid_discarded (some mNat) w0 false none (some 5)
      none).1,
   (c10_supplied_array_oid_discarded (some mNat) w0 false none (some 5)
      none).2 114 (some 199) (dJSON, some dJSONARRAY) rfl rfl⟩

end PsycopgJson
